import Mathlib

/-!
Shallow embedding of `src/frontend/server.js` (movie-analyzer frontend
gateway): the lifecycle state machine (`serverHealthy`, `serverOverloaded`,
`overloadInterval`), the chaos/admin endpoints, the `/health` reporter, the
crash countdown schedule, and the `/api` reverse-proxy hooks
(`onError`, `onProxyReq`, `onProxyRes`).

JSON response bodies are modelled as association lists of string keys and
`Json` values; wall-clock values (`new Date().toISOString()`,
`process.uptime()`, ...) are modelled by opaque constructors
(`Json.timestamp`, `Json.runtime`) since their concrete values are not part
of any claim.  HTTP header collections are modelled as finite maps
`String -> Option String`, matching JavaScript object-key assignment.
Node timer handles are modelled by `Nat` identifiers: `ServerState` carries
a fresh-id counter and the list of currently active interval timers, so that
"exactly one stress timer" is expressible.
-/

/-- A JSON value as it appears in the response bodies of `server.js`. -/
inductive Json where
  | str : String → Json
  | num : Int → Json
  | bool : Bool → Json
  | timestamp : Json
  | runtime : String → Json
deriving DecidableEq, Repr

/-- An HTTP response produced with `res.status(...).json({...})`;
`res.json({...})` alone uses status 200. -/
structure Response where
  status : Nat
  body : List (String × Json)
deriving DecidableEq, Repr

/-- Looks up a field of a JSON response body. -/
def jsonField (r : Response) (name : String) : Option Json :=
  (r.body.find? (fun p => p.1 = name)).map (fun p => p.2)

/-- The process-wide mutable state of `server.js` (lines 70-73):
`serverHealthy`, `serverOverloaded`, `overloadInterval`, together with a
model of the Node timer table (fresh-id counter and active interval
timers) so that timer creation and cancellation are observable. -/
structure ServerState where
  serverHealthy : Bool
  serverOverloaded : Bool
  overloadInterval : Option Nat
  nextTimerId : Nat
  activeTimers : List Nat
deriving DecidableEq, Repr

/-- Initial state: `serverHealthy = true`, `serverOverloaded = false`,
`overloadInterval = null`, no timers. -/
def initState : ServerState :=
  { serverHealthy := true
    serverOverloaded := false
    overloadInterval := none
    nextTimerId := 0
    activeTimers := [] }

/-- The lifecycle invariant of the spec: `overloaded == (stressHandle != null)`,
i.e. `serverOverloaded` is true iff `overloadInterval` is non-null. -/
def stateInvariant (s : ServerState) : Prop :=
  s.serverOverloaded = s.overloadInterval.isSome

instance (s : ServerState) : Decidable (stateInvariant s) := by
  unfold stateInvariant; infer_instance

/-- GET `/health` (lines 76-92): pure read of the lifecycle state. -/
def healthHandler (s : ServerState) : Response :=
  if !s.serverHealthy then
    { status := 503
      body := [("status", .str "unhealthy"), ("timestamp", .timestamp),
               ("service", .str "frontend")] }
  else
    { status := 200
      body := [("status", .str (if s.serverOverloaded then "degraded" else "healthy")),
               ("timestamp", .timestamp), ("service", .str "frontend"),
               ("overloaded", .bool s.serverOverloaded)] }

/-- POST `/admin/toggle-health` (lines 120-128): flips `serverHealthy` and
reports the new value. -/
def toggleHealthHandler (s : ServerState) : ServerState × Response :=
  let h := !s.serverHealthy
  ({ s with serverHealthy := h },
   { status := 200
     body := [("message", .str (if h then "Frontend health enabled" else "Frontend health disabled")),
              ("healthy", .bool h), ("timestamp", .timestamp)] })

/-- POST `/admin/start-overload` (lines 130-166): if an interval is already
registered, reply without touching the state; otherwise set
`serverOverloaded`, create the stress interval timer and store its handle. -/
def startOverloadHandler (s : ServerState) : ServerState × Response :=
  match s.overloadInterval with
  | some _ =>
      (s, { status := 200
            body := [("message", .str "Overload already running"), ("overloaded", .bool true)] })
  | none =>
      let id := s.nextTimerId
      ({ s with serverOverloaded := true
                overloadInterval := some id
                nextTimerId := id + 1
                activeTimers := id :: s.activeTimers },
       { status := 200
         body := [("message", .str "Frontend server overload started - High CPU/Memory usage"),
                  ("overloaded", .bool true), ("timestamp", .timestamp)] })

/-- POST `/admin/stop-overload` (lines 168-183): if an interval is
registered, clear it, null the handle and reset `serverOverloaded`;
otherwise reply `overloaded:false` without touching anything. -/
def stopOverloadHandler (s : ServerState) : ServerState × Response :=
  match s.overloadInterval with
  | some id =>
      ({ s with overloadInterval := none
                serverOverloaded := false
                activeTimers := s.activeTimers.erase id },
       { status := 200
         body := [("message", .str "Frontend server overload stopped"),
                  ("overloaded", .bool false), ("timestamp", .timestamp)] })
  | none =>
      (s, { status := 200
            body := [("message", .str "No overload running"), ("overloaded", .bool false)] })

/-- GET `/admin/status` (lines 186-195): pure read snapshot. -/
def statusHandler (s : ServerState) : Response :=
  { status := 200
    body := [("healthy", .bool s.serverHealthy), ("overloaded", .bool s.serverOverloaded),
             ("timestamp", .timestamp), ("uptime", .runtime "uptime"),
             ("memory", .runtime "memory"), ("cpu", .runtime "cpu")] }

/-- The acknowledgement body sent by POST `/admin/crash` (lines 97-101)
before any countdown tick runs. -/
def crashAck : Response :=
  { status := 200
    body := [("message", .str "Frontend container crash initiated"),
             ("countdown", .num 3), ("timestamp", .timestamp)] }

/-- An asynchronous event scheduled by the crash handler: a countdown tick
log, the `process.exit(1)` call, the thrown error, or the SIGKILL signal. -/
inductive CrashEvent where
  | tickLog : Nat → CrashEvent
  | exitCall : Nat → CrashEvent
  | throwError : CrashEvent
  | sigkill : CrashEvent
deriving DecidableEq, Repr

/-- The timed events produced by the `setInterval` loop of the crash handler
(lines 103-117): starting from countdown `c` at time `t` (ms), each tick
fires 1000 ms later, decrements the countdown and logs it; when the
countdown reaches zero the interval is cleared and `process.exit(1)`,
a thrown error, and `SIGKILL` are scheduled 100, 200 and 300 ms after
that tick. -/
def crashEvents : Nat → Nat → List (Nat × CrashEvent)
  | 0, _ => []
  | Nat.succ c, t =>
      (t + 1000, .tickLog c) ::
        (if c = 0 then
          [(t + 1100, .exitCall 1), (t + 1200, .throwError), (t + 1300, .sigkill)]
         else crashEvents c (t + 1000))

/-- The full schedule of the crash countdown started at time 0 with
countdown 3 (line 103). -/
def crashSchedule : List (Nat × CrashEvent) := crashEvents 3 0

/-- POST `/admin/crash` (lines 95-118): replies with the acknowledgement
immediately; the countdown runs on its own timer (`crashSchedule`) and
never reads or writes the lifecycle state. -/
def crashHandler (s : ServerState) : ServerState × Response :=
  (s, crashAck)

/-- A header collection, modelled as a JavaScript object: assignment
overwrites the entry at a key and leaves every other key unchanged. -/
def setHeader (name value : String) (hs : String → Option String) : String → Option String :=
  fun n => if n = name then some value else hs n

/-- An inbound `/api` request as seen by the proxy middleware. -/
structure ApiRequest where
  method : String
  path : String
  ip : String
  headers : String → Option String

/-- The outbound request the proxy opens toward the backend. -/
structure OutboundRequest where
  method : String
  path : String
  headers : String → Option String

/-- A backend HTTP response being relayed to the client. -/
structure ProxyResponse where
  statusCode : Nat
  headers : String → Option String
  body : String

/-- The `onError` hook (lines 206-221): if response headers have not been
sent, reply 500 with the structured `{error, message, target, path}` body;
otherwise write nothing. -/
def onError (target reqPath : String) (headersSent : Bool) : Option Response :=
  if !headersSent then
    some { status := 500
           body := [("error", .str "Backend service unavailable"),
                    ("message", .str "Cannot connect to backend server"),
                    ("target", .str target), ("path", .str reqPath)] }
  else none

/-- The outbound request before the `onProxyReq` hook: method, path and
headers are forwarded from the inbound request. -/
def mkProxyReq (req : ApiRequest) : OutboundRequest :=
  { method := req.method, path := req.path, headers := req.headers }

/-- The `onProxyReq` hook (lines 222-227): stamps `X-Forwarded-Proto: http`
and `X-Real-IP` (the client address) on the outbound request. -/
def onProxyReq (req : ApiRequest) (preq : OutboundRequest) : OutboundRequest :=
  { preq with
      headers := setHeader "X-Real-IP" req.ip
        (setHeader "X-Forwarded-Proto" "http" preq.headers) }

/-- The `onProxyRes` hook (lines 228-234): stamps the three hardening
headers on the relayed backend response, touching nothing else. -/
def onProxyRes (pres : ProxyResponse) : ProxyResponse :=
  { pres with
      headers := setHeader "X-XSS-Protection" "1; mode=block"
        (setHeader "X-Frame-Options" "DENY"
          (setHeader "X-Content-Type-Options" "nosniff" pres.headers)) }

/-- The behaviour of the backend/network for one forwarded call: a
successful response, a transport error before any response byte reached the
client, or a transport error after response headers were already sent. -/
inductive BackendBehavior where
  | respond : ProxyResponse → BackendBehavior
  | failBeforeHeaders : BackendBehavior
  | failAfterHeaders : BackendBehavior

/-- What the client ends up observing from a forwarded call. -/
inductive ClientOutcome where
  | relayed : ProxyResponse → ClientOutcome
  | errorReply : Response → ClientOutcome
  | abortedNoBody : ClientOutcome

/-- One forwarded `/api` call (lines 198-235): build the outbound request,
run `onProxyReq`; on success relay the backend response through
`onProxyRes`; on a transport error run `onError` with the current
`headersSent` flag, replying 500 if it produced a body and writing nothing
otherwise. -/
def proxyForward (target : String) (backend : BackendBehavior) (req : ApiRequest) :
    OutboundRequest × ClientOutcome :=
  let preq := onProxyReq req (mkProxyReq req)
  match backend with
  | .respond pres => (preq, .relayed (onProxyRes pres))
  | .failBeforeHeaders =>
      match onError target req.path false with
      | some r => (preq, .errorReply r)
      | none => (preq, .abortedNoBody)
  | .failAfterHeaders =>
      match onError target req.path true with
      | some r => (preq, .errorReply r)
      | none => (preq, .abortedNoBody)

/-- One inbound request, by route. -/
inductive Op where
  | getHealth : Op
  | crash : Op
  | toggleHealth : Op
  | startOverload : Op
  | stopOverload : Op
  | getStatus : Op
  | api : BackendBehavior → ApiRequest → Op

/-- What a route hands back to the client. -/
inductive Reply where
  | json : Response → Reply
  | proxied : OutboundRequest → ClientOutcome → Reply

/-- The router of `server.js`: dispatches one request against the current
lifecycle state and returns the successor state and the reply. `target` is
the configured `BACKEND_URL`. -/
def handle (target : String) (s : ServerState) : Op → ServerState × Reply
  | .getHealth => (s, .json (healthHandler s))
  | .crash =>
      let p := crashHandler s
      (p.1, .json p.2)
  | .toggleHealth =>
      let p := toggleHealthHandler s
      (p.1, .json p.2)
  | .startOverload =>
      let p := startOverloadHandler s
      (p.1, .json p.2)
  | .stopOverload =>
      let p := stopOverloadHandler s
      (p.1, .json p.2)
  | .getStatus => (s, .json (statusHandler s))
  | .api backend req =>
      let p := proxyForward target backend req
      (s, .proxied p.1 p.2)

/-- Runs a sequence of requests from a starting state, keeping only the
state. -/
def run (target : String) (s : ServerState) (ops : List Op) : ServerState :=
  ops.foldl (fun st op => (handle target st op).1) s

/-- True exactly on `toggle-health` requests. -/
def isToggle : Op → Bool
  | .toggleHealth => true
  | _ => false

/-- True on the read-only routes: `/health`, `/admin/status`, and `/api`
forwarding. -/
def isReadOp : Op → Bool
  | .getHealth => true
  | .getStatus => true
  | .api _ _ => true
  | _ => false

/-- Number of `toggle-health` requests in a sequence. -/
def countToggles (ops : List Op) : Nat :=
  ops.countP (fun op => isToggle op)

/-! Helper lemmas. -/

/-- The `/health` body reports `status:"unhealthy"` exactly when the
`serverHealthy` flag is false. -/
theorem healthHandler_unhealthy_iff (s : ServerState) :
    jsonField (healthHandler s) "status" = some (.str "unhealthy") ↔
      s.serverHealthy = false := by
  obtain ⟨h, o, i, n, a⟩ := s
  cases h <;> cases o <;> simp [healthHandler, jsonField, List.find?]

/-- Every route other than `toggle-health` leaves `serverHealthy` alone. -/
theorem handle_serverHealthy (target : String) (s : ServerState) (op : Op)
    (h : isToggle op = false) :
    (handle target s op).1.serverHealthy = s.serverHealthy := by
  cases op with
  | toggleHealth => simp [isToggle] at h
  | startOverload =>
      cases hi : s.overloadInterval <;> simp [handle, startOverloadHandler, hi]
  | stopOverload =>
      cases hi : s.overloadInterval <;> simp [handle, stopOverloadHandler, hi]
  | getHealth => rfl
  | crash => rfl
  | getStatus => rfl
  | api b req => rfl

/-- Running a request sequence flips `serverHealthy` once per
`toggle-health` request in it, so the final flag is the starting flag
exactly when the toggle count is even. -/
theorem run_parity (target : String) :
    ∀ (ops : List Op) (s : ServerState),
      (run target s ops).serverHealthy =
        if countToggles ops % 2 = 0 then s.serverHealthy else !s.serverHealthy := by
  intro ops
  induction ops with
  | nil => intro s; simp [run, countToggles]
  | cons op rest ih =>
      intro s
      have hrun : run target s (op :: rest) = run target (handle target s op).1 rest := rfl
      by_cases ht : isToggle op = true
      · have hop : op = Op.toggleHealth := by
          cases op <;> first | rfl | simp [isToggle] at ht
        subst hop
        have hcount : countToggles (Op.toggleHealth :: rest) = countToggles rest + 1 := by
          simp [countToggles, List.countP_cons, isToggle]
        have hstate : (handle target s Op.toggleHealth).1.serverHealthy = !s.serverHealthy := rfl
        rw [hrun, ih, hcount, hstate]
        by_cases hp : countToggles rest % 2 = 0
        · have h1 : (countToggles rest + 1) % 2 ≠ 0 := by omega
          simp [hp, h1]
        · have h1 : (countToggles rest + 1) % 2 = 0 := by omega
          simp [hp, h1, Bool.not_not]
      · have hf : isToggle op = false := by
          revert ht; cases isToggle op <;> simp
        have hcount : countToggles (op :: rest) = countToggles rest := by
          simp [countToggles, List.countP_cons, hf]
        rw [hrun, ih, handle_serverHealthy target s op hf, hcount]

/-! Claim theorems. -/

/-- Claim C1: for every lifecycle state, GET `/health` checks in order:
if `healthy == false` it returns HTTP 503 with status `unhealthy`;
otherwise if `overloaded == true` it returns HTTP 200 with status
`degraded`; otherwise HTTP 200 with status `healthy`.  In particular
`healthy=true, overloaded=true` gives 200 `degraded`, never 503. -/
theorem health_mapping (s : ServerState) :
    (s.serverHealthy = false →
      healthHandler s =
        { status := 503
          body := [("status", .str "unhealthy"), ("timestamp", .timestamp),
                   ("service", .str "frontend")] }) ∧
    (s.serverHealthy = true → s.serverOverloaded = true →
      (healthHandler s).status = 200 ∧
      jsonField (healthHandler s) "status" = some (.str "degraded")) ∧
    (s.serverHealthy = true → s.serverOverloaded = false →
      (healthHandler s).status = 200 ∧
      jsonField (healthHandler s) "status" = some (.str "healthy")) := by
  obtain ⟨h, o, i, n, a⟩ := s
  cases h <;> cases o <;> simp [healthHandler, jsonField, List.find?]

/-- Witness for C1: the three branches evaluated at concrete states. -/
theorem health_mapping_witness :
    healthHandler ⟨false, false, none, 0, []⟩ =
      { status := 503
        body := [("status", .str "unhealthy"), ("timestamp", .timestamp),
                 ("service", .str "frontend")] } ∧
    ((healthHandler ⟨true, true, some 0, 1, [0]⟩).status = 200 ∧
      jsonField (healthHandler ⟨true, true, some 0, 1, [0]⟩) "status" = some (.str "degraded")) ∧
    ((healthHandler ⟨true, false, none, 0, []⟩).status = 200 ∧
      jsonField (healthHandler ⟨true, false, none, 0, []⟩) "status" = some (.str "healthy")) :=
  ⟨(health_mapping ⟨false, false, none, 0, []⟩).1 rfl,
   (health_mapping ⟨true, true, some 0, 1, [0]⟩).2.1 rfl rfl,
   (health_mapping ⟨true, false, none, 0, []⟩).2.2 rfl rfl⟩

/-- Claim C2: the invariant `overloaded == (stressHandle != null)` holds in
the initial state and is preserved by every route: toggle-health,
start-overload, stop-overload, status, the health read, and also crash and
proxied requests. -/
theorem invariant_preserved :
    stateInvariant initState ∧
    ∀ (target : String) (s : ServerState) (op : Op),
      stateInvariant s → stateInvariant (handle target s op).1 := by
  constructor
  · rfl
  · intro target s op h
    cases op with
    | getHealth => exact h
    | getStatus => exact h
    | crash => exact h
    | api b req => exact h
    | toggleHealth => simpa [handle, toggleHealthHandler, stateInvariant] using h
    | startOverload =>
        cases hi : s.overloadInterval with
        | some id => simpa [handle, startOverloadHandler, hi] using h
        | none => simp [handle, startOverloadHandler, hi, stateInvariant]
    | stopOverload =>
        cases hi : s.overloadInterval with
        | some id => simp [handle, stopOverloadHandler, hi, stateInvariant]
        | none => simpa [handle, stopOverloadHandler, hi] using h

/-- Witness for C2: the invariant holds initially and after a concrete
start-overload step. -/
theorem invariant_preserved_witness :
    stateInvariant initState ∧
    stateInvariant (handle "http://localhost:8080" initState Op.startOverload).1 :=
  ⟨invariant_preserved.1,
   invariant_preserved.2 "http://localhost:8080" initState Op.startOverload (by decide)⟩

/-- Claim C3: starting from the default state, for every sequence of
toggle-health requests interleaved with reads (`/health`, `/admin/status`,
`/api`), GET `/health` reports `unhealthy` iff the number of toggles
applied so far is odd; and each toggle-health request flips
`serverHealthy` and reports the new value. -/
theorem toggle_parity (target : String) (ops : List Op)
    (_hops : ∀ op ∈ ops, isToggle op = true ∨ isReadOp op = true) :
    (jsonField (healthHandler (run target initState ops)) "status" =
        some (.str "unhealthy") ↔ countToggles ops % 2 = 1) ∧
    ∀ (s : ServerState),
      (toggleHealthHandler s).1.serverHealthy = !s.serverHealthy ∧
      jsonField (toggleHealthHandler s).2 "healthy" = some (.bool (!s.serverHealthy)) := by
  constructor
  · rw [healthHandler_unhealthy_iff, run_parity target ops initState]
    by_cases hp : countToggles ops % 2 = 0
    · simp [hp, initState]
    · simp [hp, initState]
      omega
  · intro s
    exact ⟨rfl, rfl⟩

/-- Witness for C3: a concrete sequence with three toggles and a status
read yields an unhealthy report. -/
theorem toggle_parity_witness :
    jsonField (healthHandler (run "http://localhost:8080" initState
        [Op.toggleHealth, Op.getStatus, Op.toggleHealth, Op.toggleHealth])) "status" =
      some (.str "unhealthy") ↔
    countToggles [Op.toggleHealth, Op.getStatus, Op.toggleHealth, Op.toggleHealth] % 2 = 1 :=
  (toggle_parity "http://localhost:8080"
    [Op.toggleHealth, Op.getStatus, Op.toggleHealth, Op.toggleHealth]
    (by intro op h; fin_cases h <;> simp [isToggle, isReadOp])).1

/-- Claim C4 (amended): when a stress interval is already registered,
start-overload leaves the whole state unchanged and replies with the body
`{message: "Overload already running", overloaded: true}` — the
already-running condition is signalled by the message field, not by a
literal `alreadyRunning` key; from a state with no interval, two
start-overload requests in a row both report `overloaded:true`, the second
is a no-op, and exactly one timer is created across the two calls. -/
theorem startOverload_idempotent (s : ServerState) :
    (∀ id, s.overloadInterval = some id →
      startOverloadHandler s =
        (s, { status := 200
              body := [("message", .str "Overload already running"),
                       ("overloaded", .bool true)] })) ∧
    (s.overloadInterval = none →
      jsonField (startOverloadHandler s).2 "overloaded" = some (.bool true) ∧
      jsonField (startOverloadHandler (startOverloadHandler s).1).2 "overloaded" =
        some (.bool true) ∧
      (startOverloadHandler (startOverloadHandler s).1).1 = (startOverloadHandler s).1 ∧
      (startOverloadHandler s).1.activeTimers = s.nextTimerId :: s.activeTimers ∧
      (startOverloadHandler (startOverloadHandler s).1).1.activeTimers =
        s.nextTimerId :: s.activeTimers) := by
  obtain ⟨h, o, i, n, a⟩ := s
  constructor
  · intro id hi
    have : i = some id := hi
    subst this
    rfl
  · intro hi
    have : i = none := hi
    subst this
    exact ⟨rfl, rfl, rfl, rfl, rfl⟩

/-- Witness for C4: both branches at concrete states. -/
theorem startOverload_idempotent_witness :
    startOverloadHandler ⟨true, true, some 5, 6, [5]⟩ =
      (⟨true, true, some 5, 6, [5]⟩,
       { status := 200
         body := [("message", .str "Overload already running"),
                  ("overloaded", .bool true)] }) ∧
    jsonField (startOverloadHandler initState).2 "overloaded" = some (.bool true) ∧
    (startOverloadHandler (startOverloadHandler initState).1).1.activeTimers = [0] :=
  ⟨(startOverload_idempotent ⟨true, true, some 5, 6, [5]⟩).1 5 rfl,
   ((startOverload_idempotent initState).2 rfl).1,
   ((startOverload_idempotent initState).2 rfl).2.2.2.2⟩

/-- Counterexample for C4 as stated: in a concrete state with a registered
interval, the already-running reply of start-overload carries no
`alreadyRunning` field at all (the body is
`{message: "Overload already running", overloaded: true}`), so the reply is
not `{overloaded: true, alreadyRunning: true}`. -/
theorem startOverload_no_alreadyRunning_field :
    jsonField (startOverloadHandler ⟨true, true, some 5, 6, [5]⟩).2 "alreadyRunning" = none ∧
    (startOverloadHandler ⟨true, true, some 5, 6, [5]⟩).2.body =
      [("message", .str "Overload already running"), ("overloaded", .bool true)] :=
  ⟨rfl, rfl⟩

/-- Claim C5: stop-overload with no registered interval leaves the state
(`serverHealthy`, `serverOverloaded`, `overloadInterval`, timers) exactly
as it was and replies HTTP 200 with `overloaded:false`; the handler is a
total function, so no input makes it throw. -/
theorem stopOverload_noop (s : ServerState) (h : s.overloadInterval = none) :
    stopOverloadHandler s =
      (s, { status := 200
            body := [("message", .str "No overload running"),
                     ("overloaded", .bool false)] }) := by
  obtain ⟨h1, o1, i1, n1, a1⟩ := s
  have : i1 = none := h
  subst this
  rfl

/-- Witness for C5: the no-op evaluated at the initial state. -/
theorem stopOverload_noop_witness :
    stopOverloadHandler initState =
      (initState,
       { status := 200
         body := [("message", .str "No overload running"),
                  ("overloaded", .bool false)] }) :=
  stopOverload_noop initState rfl

/-- Claim C6: for every forwarded `/api` request, on any transport error
with no response headers sent yet, the gateway replies HTTP 500 with the
structured body `{error, message, target, path}` where `target` is the
configured backend address and `path` the request path; if headers were
already sent, nothing further is written. -/
theorem proxy_error_mapping (target : String) (req : ApiRequest) :
    proxyForward target BackendBehavior.failBeforeHeaders req =
      (onProxyReq req (mkProxyReq req),
       ClientOutcome.errorReply
         { status := 500
           body := [("error", .str "Backend service unavailable"),
                    ("message", .str "Cannot connect to backend server"),
                    ("target", .str target), ("path", .str req.path)] }) ∧
    proxyForward target BackendBehavior.failAfterHeaders req =
      (onProxyReq req (mkProxyReq req), ClientOutcome.abortedNoBody) :=
  ⟨rfl, rfl⟩

/-- Claim C7: on every successful backend response the gateway relays the
status and body unmodified and adds exactly the three hardening headers
(`X-Content-Type-Options: nosniff`, `X-Frame-Options: DENY`,
`X-XSS-Protection: 1; mode=block`), every other header being unchanged;
the outbound request keeps the method and path and gains
`X-Forwarded-Proto: http` and `X-Real-IP` (the client address). -/
theorem proxy_header_hardening (target : String) (req : ApiRequest)
    (pres : ProxyResponse) :
    proxyForward target (BackendBehavior.respond pres) req =
      (onProxyReq req (mkProxyReq req), ClientOutcome.relayed (onProxyRes pres)) ∧
    (onProxyRes pres).statusCode = pres.statusCode ∧
    (onProxyRes pres).body = pres.body ∧
    (onProxyRes pres).headers "X-Content-Type-Options" = some "nosniff" ∧
    (onProxyRes pres).headers "X-Frame-Options" = some "DENY" ∧
    (onProxyRes pres).headers "X-XSS-Protection" = some "1; mode=block" ∧
    (∀ n, n ≠ "X-Content-Type-Options" → n ≠ "X-Frame-Options" →
       n ≠ "X-XSS-Protection" → (onProxyRes pres).headers n = pres.headers n) ∧
    (onProxyReq req (mkProxyReq req)).method = req.method ∧
    (onProxyReq req (mkProxyReq req)).path = req.path ∧
    (onProxyReq req (mkProxyReq req)).headers "X-Forwarded-Proto" = some "http" ∧
    (onProxyReq req (mkProxyReq req)).headers "X-Real-IP" = some req.ip := by
  refine ⟨rfl, rfl, rfl, rfl, rfl, rfl, ?_, rfl, rfl, rfl, rfl⟩
  intro n h1 h2 h3
  simp [onProxyRes, setHeader, h1, h2, h3]

/-- Witness for C7: a header not among the three hardening ones is left
unchanged on a concrete response. -/
theorem proxy_header_hardening_witness :
    (onProxyRes { statusCode := 200, headers := fun _ => none, body := "ok" }).headers
        "Content-Type" =
      ({ statusCode := 200, headers := fun _ => none, body := "ok" } :
        ProxyResponse).headers "Content-Type" :=
  (proxy_header_hardening "http://localhost:8080"
      { method := "GET", path := "/movies", ip := "1.2.3.4", headers := fun _ => none }
      { statusCode := 200, headers := fun _ => none, body := "ok" }).2.2.2.2.2.2.1
    "Content-Type" (by decide) (by decide) (by decide)

/-- Claim C8: POST `/admin/crash` always replies 200 with
`{message, countdown: 3, timestamp}` and never touches the state; the
countdown schedule (which no route can cancel: `crashSchedule` is a fixed
constant) fires three logged ticks at 1000, 2000 and 3000 ms — all after
the reply at time 0 — and on reaching zero escalates through
`process.exit(1)` at 3100 ms, a thrown error at 3200 ms and `SIGKILL` at
3300 ms, i.e. a graceful exit call followed 200 ms later by the forced
signal. -/
theorem crash_countdown :
    crashAck.status = 200 ∧
    jsonField crashAck "countdown" = some (.num 3) ∧
    jsonField crashAck "message" = some (.str "Frontend container crash initiated") ∧
    (∀ s : ServerState, crashHandler s = (s, crashAck)) ∧
    crashSchedule =
      [(1000, .tickLog 2), (2000, .tickLog 1), (3000, .tickLog 0),
       (3100, .exitCall 1), (3200, .throwError), (3300, .sigkill)] ∧
    crashSchedule.all (fun e => decide (1000 ≤ e.1)) = true :=
  ⟨rfl, rfl, rfl, fun _ => rfl, rfl, rfl⟩

/-- Claim C9: the forwarding path neither reads nor writes the lifecycle
state — any two states produce the identical reply to the same `/api`
request with the same backend behaviour, and the state is returned
untouched, so forwarding continues even when simulated-unhealthy. -/
theorem proxy_state_independent (target : String) (s1 s2 : ServerState)
    (b : BackendBehavior) (req : ApiRequest) :
    (handle target s1 (Op.api b req)).2 = (handle target s2 (Op.api b req)).2 ∧
    (handle target s1 (Op.api b req)).1 = s1 :=
  ⟨rfl, rfl⟩

/-- Claim C10: the crash route leaves `serverHealthy`, `serverOverloaded`,
`overloadInterval` and the set of active timers untouched, so an active
overload interval keeps running throughout the countdown. -/
theorem crash_frame (target : String) (s : ServerState) :
    (handle target s Op.crash).1.serverHealthy = s.serverHealthy ∧
    (handle target s Op.crash).1.serverOverloaded = s.serverOverloaded ∧
    (handle target s Op.crash).1.overloadInterval = s.overloadInterval ∧
    (handle target s Op.crash).1.activeTimers = s.activeTimers ∧
    (handle target s Op.crash).1 = s :=
  ⟨rfl, rfl, rfl, rfl, rfl⟩
